import Mathlib

set_option maxRecDepth 40000
set_option maxHeartbeats 4000000

/-!
Shallow embedding of the Rusty-Boy-DMG CPU core (src/cpu.rs), the stateless
helpers of src/instructions.rs, and the cartridge bank controller of
src/cartridge.rs.

Machine integers (u8, u16) are embedded as Nat, reduced modulo 256 and 65536
exactly where the Rust code wraps (wrapping_add, wrapping_sub, left shifts,
rotations, value truncation by as-casts).  Arithmetic that the source performs
with the plain + and - operators on u16 is embedded through an Except monad
whose error value records the abort: under Rust debug semantics those
operators panic on overflow or underflow.  The two explicit panic sites of
the interpreter (undefined primary opcode, undefined extended opcode) are
errors carrying the offending opcode byte, mirroring the diagnostic message.
-/

/-- Panic reasons of the embedded interpreter: the two explicit panic arms of
the opcode dispatch (each names the offending opcode byte, mirroring the
diagnostic string of the source), and the implicit abort of unchecked u16
arithmetic under Rust debug semantics. -/
inductive Panic where
  | undefinedOpcode (op : Nat)
  | undefinedExtOpcode (op : Nat)
  | overflow
deriving DecidableEq, Repr

/-- Unchecked u16 addition as written in the source with the plain + operator:
aborts on overflow under debug semantics. -/
def checked_add16 (a b : Nat) : Except Panic Nat :=
  if a + b < 65536 then .ok (a + b) else .error .overflow

/-- Unchecked u16 subtraction as written in the source with the plain -
operator: aborts on underflow under debug semantics. -/
def checked_sub16 (a b : Nat) : Except Panic Nat :=
  if b ≤ a then .ok (a - b) else .error .overflow

/-- Modelled from the spec: the register_pair module is not under src/.
Spec section 3 defines a RegisterPair as two bytes hi and lo whose combined
value is hi shifted left by eight bits bitor lo, which for byte-sized fields
is hi * 256 + lo. -/
structure RegisterPair where
  hi : Nat
  lo : Nat
deriving DecidableEq, Repr

/-- Modelled from the spec: combined value of the pair (spec section 3). -/
def RegisterPair.get_pair (r : RegisterPair) : Nat :=
  r.hi * 256 + r.lo

/-- Modelled from the spec: setting the combined 16-bit value splits it back,
hi receiving the value shifted right by eight bits and lo the value modulo
256 (spec section 3).  The outer reduction modulo 65536 renders the u16
argument type of the source setter. -/
def RegisterPair.set_pair (v : Nat) : RegisterPair :=
  { hi := v % 65536 / 256, lo := v % 256 }

/-- Modelled from the spec: the memory_manager module is not under src/.
Spec section 6 gives the addressable-memory collaborator contract, read of a
16-bit address returning a byte and write of a byte to a 16-bit address;
claim C6 additionally fixes that a read of an address returns the value last
written to it.  Memory is therefore a total map from addresses to bytes. -/
def Mem := Nat → Nat

/-- Modelled from the spec: read of the addressable-memory collaborator. -/
def read_memory (m : Mem) (address : Nat) : Nat :=
  m (address % 65536) % 256

/-- Modelled from the spec: write of the addressable-memory collaborator. -/
def write_memory (m : Mem) (address byte : Nat) : Mem :=
  fun a => if a = address % 65536 then byte % 256 else m a

/-- test_bit from src/instructions.rs. -/
def test_bit (byte bit : Nat) : Bool :=
  (byte &&& (1 <<< bit)) >>> bit == 1

/-- set_bit from src/instructions.rs. -/
def set_bit (byte bit : Nat) : Nat :=
  byte ||| (1 <<< bit)

/-- reset_bit from src/instructions.rs: the u8 bitwise complement of the mask
is 255 xor the mask. -/
def reset_bit (byte bit : Nat) : Nat :=
  byte &&& (255 ^^^ (1 <<< bit))

/-- inc_reg_pair from src/instructions.rs (wrapping_add 1 on the pair). -/
def inc_reg_pair (dest : RegisterPair) : RegisterPair :=
  RegisterPair.set_pair ((dest.get_pair + 1) % 65536)

/-- dec_reg_pair from src/instructions.rs (wrapping_sub 1 on the pair). -/
def dec_reg_pair (dest : RegisterPair) : RegisterPair :=
  RegisterPair.set_pair ((dest.get_pair + 65536 - 1) % 65536)

/-- ld_u16_reg_pair from src/instructions.rs. -/
def ld_u16_reg_pair (src : Nat) : RegisterPair :=
  RegisterPair.set_pair src

/-- ld_u8_reg from src/instructions.rs. -/
def ld_u8_reg (src : Nat) : Nat := src

/-- CPU state from src/cpu.rs: five register pairs, program counter, master
interrupt switch and halt switch.  The memory manager is passed to each
operation explicitly instead of being a shared-cell field. -/
structure Cpu where
  reg_af : RegisterPair
  reg_bc : RegisterPair
  reg_de : RegisterPair
  reg_hl : RegisterPair
  reg_sp : RegisterPair
  reg_pc : Nat
  interrupts_enabled : Bool
  halted : Bool
deriving DecidableEq, Repr

/-- Power-on state from the Cpu constructor in src/cpu.rs. -/
def Cpu.new : Cpu :=
  { reg_af := RegisterPair.set_pair 0x01B0
    reg_bc := RegisterPair.set_pair 0x0013
    reg_de := RegisterPair.set_pair 0x00D8
    reg_hl := RegisterPair.set_pair 0x014D
    reg_sp := RegisterPair.set_pair 0xFFFE
    reg_pc := 0x0100
    interrupts_enabled := false
    halted := false }

/-- update_zero_flag from src/cpu.rs (bit 7 of the flag byte). -/
def Cpu.update_zero_flag (c : Cpu) (result : Nat) : Cpu :=
  if result == 0 then
    { c with reg_af := { c.reg_af with lo := set_bit c.reg_af.lo 7 } }
  else
    { c with reg_af := { c.reg_af with lo := reset_bit c.reg_af.lo 7 } }

/-- update_subtract_flag from src/cpu.rs (bit 6 of the flag byte). -/
def Cpu.update_subtract_flag (c : Cpu) (sub_occurred : Bool) : Cpu :=
  if sub_occurred then
    { c with reg_af := { c.reg_af with lo := set_bit c.reg_af.lo 6 } }
  else
    { c with reg_af := { c.reg_af with lo := reset_bit c.reg_af.lo 6 } }

/-- update_half_carry_flag from src/cpu.rs (bit 5 of the flag byte). -/
def Cpu.update_half_carry_flag (c : Cpu) (half_carry_occurred : Bool) : Cpu :=
  if half_carry_occurred then
    { c with reg_af := { c.reg_af with lo := set_bit c.reg_af.lo 5 } }
  else
    { c with reg_af := { c.reg_af with lo := reset_bit c.reg_af.lo 5 } }

/-- update_carry_flag from src/cpu.rs (bit 4 of the flag byte). -/
def Cpu.update_carry_flag (c : Cpu) (carry_occurred : Bool) : Cpu :=
  if carry_occurred then
    { c with reg_af := { c.reg_af with lo := set_bit c.reg_af.lo 4 } }
  else
    { c with reg_af := { c.reg_af with lo := reset_bit c.reg_af.lo 4 } }

/-- get_byte from src/cpu.rs: read the byte at pc, then advance pc by one
with the unchecked + operator. -/
def Cpu.get_byte (c : Cpu) (m : Mem) : Except Panic (Nat × Cpu) := do
  let byte := read_memory m c.reg_pc
  let pc ← checked_add16 c.reg_pc 1
  .ok (byte, { c with reg_pc := pc })

/-- get_word from src/cpu.rs: read the bytes at pc and pc + 1 (the second
address computed with the unchecked + operator), combine them little-endian,
then advance pc by two. -/
def Cpu.get_word (c : Cpu) (m : Mem) : Except Panic (Nat × Cpu) := do
  let byte_lo := read_memory m c.reg_pc
  let hi_address ← checked_add16 c.reg_pc 1
  let byte_hi := read_memory m hi_address
  let word := (byte_hi <<< 8) ||| byte_lo
  let pc ← checked_add16 c.reg_pc 2
  .ok (word, { c with reg_pc := pc })

/-- stack_push from src/cpu.rs.  The source names the high byte val_lo and
the low byte val_hi; the names are kept to match it.  Both stack-pointer
decrements use the unchecked - operator. -/
def Cpu.stack_push (c : Cpu) (m : Mem) (val : Nat) : Except Panic (Cpu × Mem) := do
  let prev := c.reg_sp.get_pair
  let val_lo := (val >>> 8) % 256
  let val_hi := val &&& 0xFF
  let sp1 ← checked_sub16 prev 1
  let c := { c with reg_sp := RegisterPair.set_pair sp1 }
  let m := write_memory m c.reg_sp.get_pair val_hi
  let sp2 ← checked_sub16 prev 2
  let c := { c with reg_sp := RegisterPair.set_pair sp2 }
  let m := write_memory m c.reg_sp.get_pair val_lo
  .ok (c, m)

/-- stack_pop from src/cpu.rs: the byte at sp forms the high half of the
word, the byte at sp + 1 the low half, and sp advances by two; the two
additions use the unchecked + operator. -/
def Cpu.stack_pop (c : Cpu) (m : Mem) : Except Panic (Nat × Cpu) := do
  let prev := c.reg_sp.get_pair
  let hi_part := (read_memory m c.reg_sp.get_pair) <<< 8
  let lo_address ← checked_add16 c.reg_sp.get_pair 1
  let word := hi_part ||| read_memory m lo_address
  let sp ← checked_add16 prev 2
  .ok (word, { c with reg_sp := RegisterPair.set_pair sp })

/-- call_routine from src/cpu.rs: push pc, then jump to the address. -/
def Cpu.call_routine (c : Cpu) (m : Mem) (address : Nat) : Except Panic (Cpu × Mem) := do
  let pc := c.reg_pc
  let (c, m) ← c.stack_push m pc
  .ok ({ c with reg_pc := address }, m)

/-- Address arithmetic of the relative-jump opcodes: the fetched byte is sign
extended (as i8 as i32), added to the post-fetch pc, and the i32 sum is
truncated back to u16. -/
def rel_jump (pc byte : Nat) : Nat :=
  (((if byte < 128 then (byte : Int) else (byte : Int) - 256) + (pc : Int)) % 65536).toNat

/-- Sign extension of a byte to u16 (as i8 as i16 as u16), used by the
stack-pointer-relative opcodes 0xE8 and 0xF8. -/
def sign_extend16 (byte : Nat) : Nat :=
  if byte < 128 then byte else byte + 0xFF00

/-- add_u8_a from src/cpu.rs.  The carry condition is transcribed exactly as
written there: it adds src to the wrapped sum, not to the prior accumulator
value. -/
def Cpu.add_u8_a (c : Cpu) (src : Nat) : Cpu :=
  let a := c.reg_af.hi
  let sum := (a + src) % 256
  let c := { c with reg_af := { c.reg_af with hi := sum } }
  let c := c.update_half_carry_flag ((((src &&& 0x0F) + (a &&& 0x0F)) &&& 0x10) == 0x10)
  let c := c.update_carry_flag (decide (src + sum > 0xFF))
  let c := c.update_zero_flag sum
  c.update_subtract_flag false

/-- adc_reg_a from src/cpu.rs. -/
def Cpu.adc_reg_a (c : Cpu) (src : Nat) : Cpu :=
  let a := c.reg_af.hi
  let carry := if test_bit c.reg_af.lo 4 then 1 else 0
  let sum := (a + src + carry) % 256
  let c := { c with reg_af := { c.reg_af with hi := sum } }
  let c := c.update_half_carry_flag (((((src &&& 0x0F) + (a &&& 0x0F)) + carry) &&& 0x10) == 0x10)
  let c := c.update_carry_flag (decide (src + sum > 0xFF))
  let c := c.update_zero_flag sum
  c.update_subtract_flag false

/-- add_u16_hl from src/cpu.rs.  The half-carry condition is transcribed
exactly as written there: it masks the 12-bit sum with 0x100.  The source
takes src by mutable reference but never writes through it, so the embedding
takes it by value. -/
def Cpu.add_u16_hl (c : Cpu) (src : Nat) : Cpu :=
  let hl := c.reg_hl.get_pair
  let c := { c with reg_hl := RegisterPair.set_pair ((hl + src) % 65536) }
  let c := c.update_half_carry_flag ((((src &&& 0xFFF) + (hl &&& 0xFFF)) &&& 0x100) == 0x100)
  let c := c.update_carry_flag (decide (src + hl > 0xFFFF))
  c.update_subtract_flag false

/-- inc_u8 from src/cpu.rs: the half-carry condition is transcribed exactly
as written there, computed from the already incremented value. -/
def Cpu.inc_u8 (c : Cpu) (dest : Nat) : Cpu × Nat :=
  let dest := (dest + 1) % 256
  let c := c.update_zero_flag dest
  let c := c.update_half_carry_flag (((1 + (dest &&& 0x0F)) &&& 0x10) == 0x10)
  let c := c.update_subtract_flag false
  (c, dest)

/-- dec_u8 from src/cpu.rs. -/
def Cpu.dec_u8 (c : Cpu) (dest : Nat) : Cpu × Nat :=
  let dest := (dest + 256 - 1) % 256
  let c := c.update_zero_flag dest
  let c := c.update_half_carry_flag (decide ((dest &&& 0x0F) < 1))
  let c := c.update_subtract_flag true
  (c, dest)

/-- sub_u8_a from src/cpu.rs (wrapping subtraction; the carry condition
compares src with the wrapped difference as i32 values). -/
def Cpu.sub_u8_a (c : Cpu) (src : Nat) : Cpu :=
  let a := c.reg_af.hi
  let sum := (a + 256 - src % 256) % 256
  let c := { c with reg_af := { c.reg_af with hi := sum } }
  let c := c.update_half_carry_flag (decide ((a &&& 0x0F) < (sum &&& 0x0F)))
  let c := c.update_carry_flag (decide ((src : Int) - (sum : Int) < 0))
  let c := c.update_zero_flag sum
  c.update_subtract_flag true

/-- sbc_reg_a from src/cpu.rs (note: the source clears the subtract flag
here). -/
def Cpu.sbc_reg_a (c : Cpu) (src : Nat) : Cpu :=
  let a := c.reg_af.hi
  let carry := if test_bit c.reg_af.lo 4 then 1 else 0
  let sum := ((a + 256 - src % 256) % 256 + 256 - carry) % 256
  let c := { c with reg_af := { c.reg_af with hi := sum } }
  let c := c.update_half_carry_flag (decide ((a &&& 0x0F) < (sum &&& 0x0F) + carry))
  let c := c.update_carry_flag (decide (src + sum > 0xFF))
  let c := c.update_zero_flag sum
  c.update_subtract_flag false

/-- and_reg_a from src/cpu.rs. -/
def Cpu.and_reg_a (c : Cpu) (src : Nat) : Cpu :=
  let res := c.reg_af.hi &&& src
  let c := { c with reg_af := { c.reg_af with hi := res } }
  let c := c.update_half_carry_flag true
  let c := c.update_carry_flag false
  let c := c.update_zero_flag res
  c.update_subtract_flag false

/-- or_reg_a from src/cpu.rs. -/
def Cpu.or_reg_a (c : Cpu) (src : Nat) : Cpu :=
  let res := c.reg_af.hi ||| src
  let c := { c with reg_af := { c.reg_af with hi := res } }
  let c := c.update_half_carry_flag false
  let c := c.update_carry_flag false
  let c := c.update_zero_flag res
  c.update_subtract_flag false

/-- xor_reg_a from src/cpu.rs. -/
def Cpu.xor_reg_a (c : Cpu) (src : Nat) : Cpu :=
  let res := c.reg_af.hi ^^^ src
  let c := { c with reg_af := { c.reg_af with hi := res } }
  let c := c.update_half_carry_flag false
  let c := c.update_carry_flag false
  let c := c.update_zero_flag res
  c.update_subtract_flag false

/-- cp_reg_a from src/cpu.rs: run the subtraction path, then restore the
prior accumulator value. -/
def Cpu.cp_reg_a (c : Cpu) (src : Nat) : Cpu :=
  let a := c.reg_af.hi
  let c := c.sub_u8_a src
  { c with reg_af := { c.reg_af with hi := a } }

/-- rl_u8 from src/cpu.rs. -/
def Cpu.rl_u8 (c : Cpu) (src : Nat) : Cpu × Nat :=
  let carry_occurred := src >>> 7 == 1
  let src := (src <<< 1) % 256
  let src := if test_bit c.reg_af.lo 4 then src ||| 1 else src
  let c := c.update_half_carry_flag false
  let c := c.update_carry_flag carry_occurred
  let c := c.update_zero_flag src
  let c := c.update_subtract_flag false
  (c, src)

/-- rlc_u8 from src/cpu.rs (u8 rotate_left by one). -/
def Cpu.rlc_u8 (c : Cpu) (src : Nat) : Cpu × Nat :=
  let carry_occurred := src >>> 7 == 1
  let src := ((src <<< 1) % 256) ||| (src >>> 7)
  let c := c.update_half_carry_flag false
  let c := c.update_carry_flag carry_occurred
  let c := c.update_zero_flag src
  let c := c.update_subtract_flag false
  (c, src)

/-- rr_u8 from src/cpu.rs. -/
def Cpu.rr_u8 (c : Cpu) (src : Nat) : Cpu × Nat :=
  let carry_occurred := (src &&& 1) == 1
  let src := src >>> 1
  let src := if test_bit c.reg_af.lo 4 then src ||| (1 <<< 7) else src
  let c := c.update_half_carry_flag false
  let c := c.update_carry_flag carry_occurred
  let c := c.update_zero_flag src
  let c := c.update_subtract_flag false
  (c, src)

/-- rrc_u8 from src/cpu.rs (u8 rotate_right by one). -/
def Cpu.rrc_u8 (c : Cpu) (src : Nat) : Cpu × Nat :=
  let carry_occurred := (src &&& 1) == 1
  let src := (src >>> 1) ||| (((src &&& 1) <<< 7))
  let c := c.update_half_carry_flag false
  let c := c.update_carry_flag carry_occurred
  let c := c.update_zero_flag src
  let c := c.update_subtract_flag false
  (c, src)

/-- extended_instruction from src/cpu.rs: the 0xCB-prefixed table.  The
source implements the rotate-left-with-carry entries 0x00 through 0x05 and
0x08, returns a bare cycle count 16 for entry 0x06, lists every entry from
0x09 through 0xFF individually as a bare cycle count with no state change
(16 when the low nibble of the entry is 0x6 or 0xE, 8 otherwise), and has no
entry for 0x07, which therefore falls to the undefined-extended-opcode panic
arm.  The run of consecutive bare-count entries is rendered by the final
range test, which returns exactly the constants the source lists.  The
caller extended_instruction below has already fetched the opcode byte. -/
def Cpu.exec_extended (c : Cpu) (m : Mem) (opcode : Nat) : Except Panic (Nat × Cpu × Mem) :=
  if opcode == 0x00 then
    let (c, b) := c.rlc_u8 c.reg_bc.hi
    .ok (8, { c with reg_bc := { c.reg_bc with hi := b } }, m)
  else if opcode == 0x01 then
    let (c, b) := c.rlc_u8 c.reg_bc.lo
    .ok (8, { c with reg_bc := { c.reg_bc with lo := b } }, m)
  else if opcode == 0x02 then
    let (c, b) := c.rlc_u8 c.reg_de.hi
    .ok (8, { c with reg_de := { c.reg_de with hi := b } }, m)
  else if opcode == 0x03 then
    let (c, b) := c.rlc_u8 c.reg_de.lo
    .ok (8, { c with reg_de := { c.reg_de with lo := b } }, m)
  else if opcode == 0x04 then
    let (c, b) := c.rlc_u8 c.reg_hl.hi
    .ok (8, { c with reg_hl := { c.reg_hl with hi := b } }, m)
  else if opcode == 0x05 then
    let (c, b) := c.rlc_u8 c.reg_hl.lo
    .ok (8, { c with reg_hl := { c.reg_hl with lo := b } }, m)
  else if opcode == 0x06 then
    .ok (16, c, m)
  else if opcode == 0x08 then
    let (c, b) := c.rlc_u8 c.reg_af.hi
    .ok (8, { c with reg_af := { c.reg_af with hi := b } }, m)
  else if 0x09 ≤ opcode ∧ opcode ≤ 0xFF then
    if opcode % 16 == 0x6 || opcode % 16 == 0xE then
      .ok (16, c, m)
    else
      .ok (8, c, m)
  else
    .error (.undefinedExtOpcode opcode)

/-- extended_instruction from src/cpu.rs: fetch the extended opcode byte and
dispatch on the 0xCB table. -/
def Cpu.extended_instruction (c : Cpu) (m : Mem) : Except Panic (Nat × Cpu × Mem) := do
  let (opcode, c) ← c.get_byte m
  c.exec_extended m opcode

/-- Banking classification from src/cartridge.rs. -/
inductive BankingType where
  | NoBanking
  | MBC1
  | MBC2
deriving DecidableEq, Repr

/-- Cartridge control state from src/cartridge.rs.  The rom image and the
ram_banks array are omitted from the embedding: none of the banking
operations below read or write them. -/
structure Cartridge where
  banking_type : BankingType
  current_rom_bank : Nat
  current_ram_bank : Nat
  rom_banking_mode : Bool
  ram_write_enabled : Bool
deriving DecidableEq, Repr

/-- Constructor state of the Cartridge from src/cartridge.rs, parametrised
by the banking type classified from the ROM header byte. -/
def Cartridge.fresh (bt : BankingType) : Cartridge :=
  { banking_type := bt
    current_rom_bank := 1
    current_ram_bank := 0
    rom_banking_mode := true
    ram_write_enabled := false }

/-- update_ram_writing from src/cartridge.rs. -/
def Cartridge.update_ram_writing (cart : Cartridge) (address byte : Nat) : Cartridge :=
  if cart.banking_type == BankingType.MBC2 && ((address &&& 0x08) >>> 3 == 1) then
    cart
  else if byte &&& 0x0F == 0x0A then
    { cart with ram_write_enabled := true }
  else if byte &&& 0x0F == 0x00 then
    { cart with ram_write_enabled := false }
  else
    cart

/-- change_lo_rom_bank from src/cartridge.rs. -/
def Cartridge.change_lo_rom_bank (cart : Cartridge) (byte : Nat) : Cartridge :=
  if cart.banking_type == BankingType.MBC2 then
    let bank := byte &&& 0x0F
    { cart with current_rom_bank := if bank == 0 then bank + 1 else bank }
  else
    let bank := (cart.current_rom_bank &&& 0xE0) ||| (byte &&& 0x1F)
    { cart with current_rom_bank := if bank == 0 then bank + 1 else bank }

/-- change_hi_rom_bank from src/cartridge.rs. -/
def Cartridge.change_hi_rom_bank (cart : Cartridge) (byte : Nat) : Cartridge :=
  let bank := (cart.current_rom_bank &&& 0x1F) ||| (byte &&& 0xE0)
  { cart with current_rom_bank := if bank == 0 then bank + 1 else bank }

/-- change_ram_bank from src/cartridge.rs. -/
def Cartridge.change_ram_bank (cart : Cartridge) (byte : Nat) : Cartridge :=
  { cart with current_ram_bank := byte &&& 0x03 }

/-- set_banking_mode from src/cartridge.rs. -/
def Cartridge.set_banking_mode (cart : Cartridge) (byte : Nat) : Cartridge :=
  let cart := { cart with rom_banking_mode := byte &&& 0x01 == 0 }
  if cart.rom_banking_mode then { cart with current_ram_bank := 0 } else cart

/-- manage_banking from src/cartridge.rs. -/
def Cartridge.manage_banking (cart : Cartridge) (address byte : Nat) : Cartridge :=
  if address < 0x2000 then
    if cart.banking_type == BankingType.MBC1 || cart.banking_type == BankingType.MBC2 then
      cart.update_ram_writing address byte
    else
      cart
  else if 0x2000 ≤ address ∧ address < 0x4000 then
    if cart.banking_type == BankingType.MBC1 || cart.banking_type == BankingType.MBC2 then
      cart.change_lo_rom_bank byte
    else
      cart
  else if 0x4000 ≤ address ∧ address < 0x6000 then
    if cart.banking_type == BankingType.MBC1 then
      if cart.rom_banking_mode then
        cart.change_hi_rom_bank byte
      else
        cart.change_ram_bank byte
    else
      cart
  else if 0x6000 ≤ address ∧ address < 0x8000 then
    if cart.banking_type == BankingType.MBC1 then
      cart.set_banking_mode byte
    else
      cart
  else
    cart

/-- Iterated manage_banking over a list of address-byte write pairs. -/
def run_banking (cart : Cartridge) (writes : List (Nat × Nat)) : Cartridge :=
  writes.foldl (fun cart w => cart.manage_banking w.1 w.2) cart

/-- Opcode arms 0x00 through 0x3F of the primary table of interpret_opcode
from src/cpu.rs, transcribed case by case.  The final arm is only reached
for an opcode with no entry in this block. -/
def Cpu.exec_opcode_main0 (c : Cpu) (m : Mem) : Nat → Except Panic (Nat × Cpu × Mem)
  | 0x00 => .ok (4, c, m)
  | 0x01 => do
      let (w, c) ← c.get_word m
      .ok (12, { c with reg_bc := ld_u16_reg_pair w }, m)
  | 0x02 => .ok (8, c, write_memory m c.reg_bc.get_pair c.reg_af.hi)
  | 0x03 => .ok (8, { c with reg_bc := inc_reg_pair c.reg_bc }, m)
  | 0x04 =>
      let (c, b) := c.inc_u8 c.reg_bc.hi
      .ok (4, { c with reg_bc := { c.reg_bc with hi := b } }, m)
  | 0x05 =>
      let (c, b) := c.dec_u8 c.reg_bc.hi
      .ok (4, { c with reg_bc := { c.reg_bc with hi := b } }, m)
  | 0x06 => do
      let (b, c) ← c.get_byte m
      .ok (8, { c with reg_bc := { c.reg_bc with hi := ld_u8_reg b } }, m)
  | 0x07 =>
      let (c, a) := c.rlc_u8 c.reg_af.hi
      .ok (4, { c with reg_af := { c.reg_af with hi := a } }, m)
  | 0x08 => do
      let (address, c) ← c.get_word m
      let m := write_memory m address c.reg_sp.lo
      let address1 ← checked_add16 address 1
      let m := write_memory m address1 c.reg_sp.hi
      .ok (20, c, m)
  | 0x09 =>
      let bc := c.reg_bc.get_pair
      let c := c.add_u16_hl bc
      .ok (8, { c with reg_bc := RegisterPair.set_pair bc }, m)
  | 0x0A => .ok (8, { c with reg_af := { c.reg_af with hi := read_memory m c.reg_bc.get_pair } }, m)
  | 0x0B => do
      let val := c.reg_bc.get_pair
      let v ← checked_sub16 val 1
      .ok (8, { c with reg_bc := RegisterPair.set_pair v }, m)
  | 0x0C =>
      let (c, b) := c.inc_u8 c.reg_bc.lo
      .ok (4, { c with reg_bc := { c.reg_bc with lo := b } }, m)
  | 0x0D =>
      let (c, b) := c.dec_u8 c.reg_bc.lo
      .ok (4, { c with reg_bc := { c.reg_bc with lo := b } }, m)
  | 0x0E => do
      let (b, c) ← c.get_byte m
      .ok (8, { c with reg_bc := { c.reg_bc with lo := ld_u8_reg b } }, m)
  | 0x0F =>
      let (c, a) := c.rrc_u8 c.reg_af.hi
      .ok (4, { c with reg_af := { c.reg_af with hi := a } }, m)
  | 0x10 => .ok (4, c, m)
  | 0x11 => do
      let (w, c) ← c.get_word m
      .ok (12, { c with reg_de := ld_u16_reg_pair w }, m)
  | 0x12 => .ok (8, c, write_memory m c.reg_de.get_pair c.reg_af.hi)
  | 0x13 => .ok (8, { c with reg_de := inc_reg_pair c.reg_de }, m)
  | 0x14 =>
      let (c, b) := c.inc_u8 c.reg_de.hi
      .ok (4, { c with reg_de := { c.reg_de with hi := b } }, m)
  | 0x15 =>
      let (c, b) := c.dec_u8 c.reg_de.hi
      .ok (4, { c with reg_de := { c.reg_de with hi := b } }, m)
  | 0x16 => do
      let (b, c) ← c.get_byte m
      .ok (8, { c with reg_de := { c.reg_de with hi := ld_u8_reg b } }, m)
  | 0x17 =>
      let (c, a) := c.rl_u8 c.reg_af.hi
      .ok (4, { c with reg_af := { c.reg_af with hi := a } }, m)
  | 0x18 => do
      let (b, c) ← c.get_byte m
      .ok (12, { c with reg_pc := rel_jump c.reg_pc b }, m)
  | 0x19 =>
      let de := c.reg_de.get_pair
      let c := c.add_u16_hl de
      .ok (8, { c with reg_de := RegisterPair.set_pair de }, m)
  | 0x1A => .ok (8, { c with reg_af := { c.reg_af with hi := read_memory m c.reg_de.get_pair } }, m)
  | 0x1B => do
      let val := c.reg_de.get_pair
      let v ← checked_sub16 val 1
      .ok (8, { c with reg_de := RegisterPair.set_pair v }, m)
  | 0x1C =>
      let (c, b) := c.inc_u8 c.reg_de.lo
      .ok (4, { c with reg_de := { c.reg_de with lo := b } }, m)
  | 0x1D =>
      let (c, b) := c.dec_u8 c.reg_de.lo
      .ok (4, { c with reg_de := { c.reg_de with lo := b } }, m)
  | 0x1E => do
      let (b, c) ← c.get_byte m
      .ok (8, { c with reg_de := { c.reg_de with lo := ld_u8_reg b } }, m)
  | 0x1F =>
      let (c, a) := c.rr_u8 c.reg_af.hi
      .ok (4, { c with reg_af := { c.reg_af with hi := a } }, m)
  | 0x20 =>
      if ! test_bit c.reg_af.lo 7 then do
        let (b, c) ← c.get_byte m
        .ok (12, { c with reg_pc := rel_jump c.reg_pc b }, m)
      else do
        let pc ← checked_add16 c.reg_pc 1
        .ok (8, { c with reg_pc := pc }, m)
  | 0x21 => do
      let (w, c) ← c.get_word m
      .ok (12, { c with reg_hl := ld_u16_reg_pair w }, m)
  | 0x22 =>
      let m := write_memory m c.reg_hl.get_pair c.reg_af.hi
      .ok (8, { c with reg_hl := inc_reg_pair c.reg_hl }, m)
  | 0x23 => .ok (8, { c with reg_hl := inc_reg_pair c.reg_hl }, m)
  | 0x24 =>
      let (c, b) := c.inc_u8 c.reg_hl.hi
      .ok (4, { c with reg_hl := { c.reg_hl with hi := b } }, m)
  | 0x25 =>
      let (c, b) := c.dec_u8 c.reg_hl.hi
      .ok (4, { c with reg_hl := { c.reg_hl with hi := b } }, m)
  | 0x26 => do
      let (b, c) ← c.get_byte m
      .ok (8, { c with reg_hl := { c.reg_hl with hi := ld_u8_reg b } }, m)
  | 0x27 => .ok (4, c, m)
  | 0x28 =>
      if test_bit c.reg_af.lo 7 then do
        let (b, c) ← c.get_byte m
        .ok (12, { c with reg_pc := rel_jump c.reg_pc b }, m)
      else do
        let pc ← checked_add16 c.reg_pc 1
        .ok (8, { c with reg_pc := pc }, m)
  | 0x29 =>
      let hl := c.reg_hl.get_pair
      let c := c.add_u16_hl hl
      .ok (8, { c with reg_hl := RegisterPair.set_pair hl }, m)
  | 0x2A =>
      let c := { c with reg_af := { c.reg_af with hi := read_memory m c.reg_hl.get_pair } }
      .ok (8, { c with reg_hl := inc_reg_pair c.reg_hl }, m)
  | 0x2B => do
      let val := c.reg_hl.get_pair
      let v ← checked_sub16 val 1
      .ok (8, { c with reg_hl := RegisterPair.set_pair v }, m)
  | 0x2C =>
      let (c, b) := c.inc_u8 c.reg_hl.lo
      .ok (4, { c with reg_hl := { c.reg_hl with lo := b } }, m)
  | 0x2D =>
      let (c, b) := c.dec_u8 c.reg_hl.lo
      .ok (4, { c with reg_hl := { c.reg_hl with lo := b } }, m)
  | 0x2E => do
      let (b, c) ← c.get_byte m
      .ok (8, { c with reg_hl := { c.reg_hl with lo := ld_u8_reg b } }, m)
  | 0x2F =>
      let c := { c with reg_af := { c.reg_af with hi := c.reg_af.hi ^^^ 0xFF } }
      let c := c.update_subtract_flag true
      let c := c.update_half_carry_flag true
      .ok (4, c, m)
  | 0x30 =>
      if ! test_bit c.reg_af.lo 4 then do
        let (b, c) ← c.get_byte m
        .ok (12, { c with reg_pc := rel_jump c.reg_pc b }, m)
      else do
        let pc ← checked_add16 c.reg_pc 1
        .ok (8, { c with reg_pc := pc }, m)
  | 0x31 => do
      let (w, c) ← c.get_word m
      .ok (12, { c with reg_sp := ld_u16_reg_pair w }, m)
  | 0x32 =>
      let m := write_memory m c.reg_hl.get_pair c.reg_af.hi
      .ok (8, { c with reg_hl := dec_reg_pair c.reg_hl }, m)
  | 0x33 => .ok (8, { c with reg_sp := inc_reg_pair c.reg_sp }, m)
  | 0x34 =>
      let (c, _) := c.inc_u8 (read_memory m c.reg_hl.get_pair)
      .ok (12, c, m)
  | 0x35 =>
      let (c, _) := c.dec_u8 (read_memory m c.reg_hl.get_pair)
      .ok (12, c, m)
  | 0x36 => do
      let (b, c) ← c.get_byte m
      .ok (12, c, write_memory m c.reg_hl.get_pair b)
  | 0x37 =>
      let c := c.update_carry_flag true
      let c := c.update_subtract_flag false
      let c := c.update_half_carry_flag false
      .ok (4, c, m)
  | 0x38 =>
      if test_bit c.reg_af.lo 4 then do
        let (b, c) ← c.get_byte m
        .ok (12, { c with reg_pc := rel_jump c.reg_pc b }, m)
      else do
        let pc ← checked_add16 c.reg_pc 1
        .ok (8, { c with reg_pc := pc }, m)
  | 0x39 =>
      let sp := c.reg_sp.get_pair
      let c := c.add_u16_hl sp
      .ok (8, { c with reg_sp := RegisterPair.set_pair sp }, m)
  | 0x3A =>
      let c := { c with reg_af := { c.reg_af with hi := read_memory m c.reg_hl.get_pair } }
      .ok (8, { c with reg_hl := dec_reg_pair c.reg_hl }, m)
  | 0x3B => do
      let val := c.reg_sp.get_pair
      let v ← checked_sub16 val 1
      .ok (8, { c with reg_sp := RegisterPair.set_pair v }, m)
  | 0x3C =>
      let (c, b) := c.inc_u8 c.reg_af.hi
      .ok (4, { c with reg_af := { c.reg_af with hi := b } }, m)
  | 0x3D =>
      let (c, b) := c.dec_u8 c.reg_af.hi
      .ok (4, { c with reg_af := { c.reg_af with hi := b } }, m)
  | 0x3E => do
      let (b, c) ← c.get_byte m
      .ok (8, { c with reg_af := { c.reg_af with hi := ld_u8_reg b } }, m)
  | 0x3F =>
      let carry_set := test_bit c.reg_af.lo 4
      let c := c.update_carry_flag (! carry_set)
      let c := c.update_subtract_flag false
      let c := c.update_half_carry_flag false
      .ok (4, c, m)
  | op => .error (.undefinedOpcode op)

/-- Opcode arms 0x40 through 0x7F of the primary table of interpret_opcode
from src/cpu.rs, transcribed case by case. -/
def Cpu.exec_opcode_main1 (c : Cpu) (m : Mem) : Nat → Except Panic (Nat × Cpu × Mem)
  | 0x40 => .ok (4, c, m)
  | 0x41 => .ok (4, { c with reg_bc := { c.reg_bc with hi := ld_u8_reg c.reg_bc.lo } }, m)
  | 0x42 => .ok (4, { c with reg_bc := { c.reg_bc with hi := ld_u8_reg c.reg_de.hi } }, m)
  | 0x43 => .ok (4, { c with reg_bc := { c.reg_bc with hi := ld_u8_reg c.reg_de.lo } }, m)
  | 0x44 => .ok (4, { c with reg_bc := { c.reg_bc with hi := ld_u8_reg c.reg_hl.hi } }, m)
  | 0x45 => .ok (4, { c with reg_bc := { c.reg_bc with hi := ld_u8_reg c.reg_de.lo } }, m)
  | 0x46 => .ok (8, { c with reg_bc := { c.reg_bc with hi := ld_u8_reg (read_memory m c.reg_hl.get_pair) } }, m)
  | 0x47 => .ok (4, { c with reg_bc := { c.reg_bc with hi := ld_u8_reg c.reg_af.hi } }, m)
  | 0x48 => .ok (4, { c with reg_bc := { c.reg_bc with lo := ld_u8_reg c.reg_bc.hi } }, m)
  | 0x49 => .ok (4, c, m)
  | 0x4A => .ok (4, { c with reg_bc := { c.reg_bc with lo := ld_u8_reg c.reg_de.hi } }, m)
  | 0x4B => .ok (4, { c with reg_bc := { c.reg_bc with lo := ld_u8_reg c.reg_de.lo } }, m)
  | 0x4C => .ok (4, { c with reg_bc := { c.reg_bc with lo := ld_u8_reg c.reg_hl.hi } }, m)
  | 0x4D => .ok (4, { c with reg_bc := { c.reg_bc with lo := ld_u8_reg c.reg_de.lo } }, m)
  | 0x4E => .ok (4, { c with reg_bc := { c.reg_bc with lo := ld_u8_reg (read_memory m c.reg_hl.get_pair) } }, m)
  | 0x4F => .ok (4, { c with reg_bc := { c.reg_bc with lo := ld_u8_reg c.reg_af.hi } }, m)
  | 0x50 => .ok (4, { c with reg_de := { c.reg_de with hi := ld_u8_reg c.reg_bc.hi } }, m)
  | 0x51 => .ok (4, { c with reg_de := { c.reg_de with hi := ld_u8_reg c.reg_bc.lo } }, m)
  | 0x52 => .ok (4, c, m)
  | 0x53 => .ok (4, { c with reg_de := { c.reg_de with hi := ld_u8_reg c.reg_de.lo } }, m)
  | 0x54 => .ok (4, { c with reg_de := { c.reg_de with hi := ld_u8_reg c.reg_hl.hi } }, m)
  | 0x55 => .ok (4, { c with reg_de := { c.reg_de with hi := ld_u8_reg c.reg_hl.lo } }, m)
  | 0x56 => .ok (8, { c with reg_de := { c.reg_de with hi := ld_u8_reg (read_memory m c.reg_hl.get_pair) } }, m)
  | 0x57 => .ok (4, { c with reg_de := { c.reg_de with hi := ld_u8_reg c.reg_af.hi } }, m)
  | 0x58 => .ok (4, { c with reg_de := { c.reg_de with lo := ld_u8_reg c.reg_bc.hi } }, m)
  | 0x59 => .ok (4, { c with reg_de := { c.reg_de with lo := ld_u8_reg c.reg_bc.lo } }, m)
  | 0x5A => .ok (4, { c with reg_de := { c.reg_de with lo := ld_u8_reg c.reg_de.hi } }, m)
  | 0x5B => .ok (4, c, m)
  | 0x5C => .ok (4, { c with reg_de := { c.reg_de with lo := ld_u8_reg c.reg_hl.hi } }, m)
  | 0x5D => .ok (4, { c with reg_de := { c.reg_de with lo := ld_u8_reg c.reg_hl.lo } }, m)
  | 0x5E => .ok (8, { c with reg_de := { c.reg_de with lo := ld_u8_reg (read_memory m c.reg_hl.get_pair) } }, m)
  | 0x5F => .ok (4, { c with reg_de := { c.reg_de with lo := ld_u8_reg c.reg_af.hi } }, m)
  | 0x60 => .ok (4, { c with reg_hl := { c.reg_hl with hi := ld_u8_reg c.reg_bc.hi } }, m)
  | 0x61 => .ok (4, { c with reg_hl := { c.reg_hl with hi := ld_u8_reg c.reg_bc.lo } }, m)
  | 0x62 => .ok (4, { c with reg_hl := { c.reg_hl with hi := ld_u8_reg c.reg_de.hi } }, m)
  | 0x63 => .ok (4, { c with reg_hl := { c.reg_hl with hi := ld_u8_reg c.reg_de.lo } }, m)
  | 0x64 => .ok (4, c, m)
  | 0x65 => .ok (4, { c with reg_hl := { c.reg_hl with hi := ld_u8_reg c.reg_hl.lo } }, m)
  | 0x66 => .ok (8, { c with reg_hl := { c.reg_hl with hi := ld_u8_reg (read_memory m c.reg_hl.get_pair) } }, m)
  | 0x67 => .ok (4, { c with reg_hl := { c.reg_hl with hi := ld_u8_reg c.reg_af.hi } }, m)
  | 0x68 => .ok (4, { c with reg_hl := { c.reg_hl with lo := ld_u8_reg c.reg_bc.hi } }, m)
  | 0x69 => .ok (4, { c with reg_hl := { c.reg_hl with lo := ld_u8_reg c.reg_bc.lo } }, m)
  | 0x6A => .ok (4, { c with reg_hl := { c.reg_hl with lo := ld_u8_reg c.reg_de.hi } }, m)
  | 0x6B => .ok (4, { c with reg_hl := { c.reg_hl with lo := ld_u8_reg c.reg_de.lo } }, m)
  | 0x6C => .ok (4, { c with reg_hl := { c.reg_hl with lo := ld_u8_reg c.reg_hl.hi } }, m)
  | 0x6D => .ok (4, c, m)
  | 0x6E => .ok (8, { c with reg_hl := { c.reg_hl with lo := ld_u8_reg (read_memory m c.reg_hl.get_pair) } }, m)
  | 0x6F => .ok (4, { c with reg_hl := { c.reg_hl with lo := ld_u8_reg c.reg_af.hi } }, m)
  | 0x70 => .ok (8, c, write_memory m c.reg_hl.get_pair c.reg_bc.hi)
  | 0x71 => .ok (8, c, write_memory m c.reg_hl.get_pair c.reg_bc.lo)
  | 0x72 => .ok (8, c, write_memory m c.reg_hl.get_pair c.reg_de.hi)
  | 0x73 => .ok (8, c, write_memory m c.reg_hl.get_pair c.reg_de.lo)
  | 0x74 => .ok (8, c, write_memory m c.reg_hl.get_pair c.reg_hl.hi)
  | 0x75 => .ok (8, c, write_memory m c.reg_hl.get_pair c.reg_hl.lo)
  | 0x76 => .ok (4, { c with halted := true }, m)
  | 0x77 => .ok (8, c, write_memory m c.reg_hl.get_pair c.reg_af.hi)
  | 0x78 => .ok (4, { c with reg_af := { c.reg_af with hi := ld_u8_reg c.reg_bc.hi } }, m)
  | 0x79 => .ok (4, { c with reg_af := { c.reg_af with hi := ld_u8_reg c.reg_bc.lo } }, m)
  | 0x7A => .ok (4, { c with reg_af := { c.reg_af with hi := ld_u8_reg c.reg_de.hi } }, m)
  | 0x7B => .ok (4, { c with reg_af := { c.reg_af with hi := ld_u8_reg c.reg_de.lo } }, m)
  | 0x7C => .ok (4, { c with reg_af := { c.reg_af with hi := ld_u8_reg c.reg_hl.hi } }, m)
  | 0x7D => .ok (4, { c with reg_af := { c.reg_af with hi := ld_u8_reg c.reg_hl.lo } }, m)
  | 0x7E => .ok (8, { c with reg_af := { c.reg_af with hi := ld_u8_reg (read_memory m c.reg_hl.get_pair) } }, m)
  | 0x7F => .ok (4, c, m)
  | op => .error (.undefinedOpcode op)

/-- Opcode arms 0x80 through 0xBF of the primary table of interpret_opcode
from src/cpu.rs, transcribed case by case. -/
def Cpu.exec_opcode_main2 (c : Cpu) (m : Mem) : Nat → Except Panic (Nat × Cpu × Mem)
  | 0x80 => .ok (4, c.add_u8_a c.reg_bc.hi, m)
  | 0x81 => .ok (4, c.add_u8_a c.reg_bc.lo, m)
  | 0x82 => .ok (4, c.add_u8_a c.reg_de.hi, m)
  | 0x83 => .ok (4, c.add_u8_a c.reg_de.lo, m)
  | 0x84 => .ok (4, c.add_u8_a c.reg_hl.hi, m)
  | 0x85 => .ok (4, c.add_u8_a c.reg_hl.lo, m)
  | 0x86 => .ok (8, c.add_u8_a (read_memory m c.reg_hl.get_pair), m)
  | 0x87 => .ok (4, c.add_u8_a c.reg_af.hi, m)
  | 0x88 => .ok (4, c.adc_reg_a c.reg_bc.hi, m)
  | 0x89 => .ok (4, c.adc_reg_a c.reg_bc.lo, m)
  | 0x8A => .ok (4, c.adc_reg_a c.reg_de.hi, m)
  | 0x8B => .ok (4, c.adc_reg_a c.reg_de.lo, m)
  | 0x8C => .ok (4, c.adc_reg_a c.reg_hl.hi, m)
  | 0x8D => .ok (4, c.adc_reg_a c.reg_hl.lo, m)
  | 0x8E => .ok (8, c.adc_reg_a (read_memory m c.reg_hl.get_pair), m)
  | 0x8F => .ok (4, c.adc_reg_a c.reg_af.hi, m)
  | 0x90 => .ok (4, c.sub_u8_a c.reg_bc.hi, m)
  | 0x91 => .ok (4, c.sub_u8_a c.reg_bc.lo, m)
  | 0x92 => .ok (4, c.sub_u8_a c.reg_de.hi, m)
  | 0x93 => .ok (4, c.sub_u8_a c.reg_de.lo, m)
  | 0x94 => .ok (4, c.sub_u8_a c.reg_hl.hi, m)
  | 0x95 => .ok (4, c.sub_u8_a c.reg_hl.lo, m)
  | 0x96 => .ok (8, c.sub_u8_a (read_memory m c.reg_hl.get_pair), m)
  | 0x97 => .ok (4, c.sub_u8_a c.reg_af.hi, m)
  | 0x98 => .ok (4, c.sbc_reg_a c.reg_bc.hi, m)
  | 0x99 => .ok (4, c.sbc_reg_a c.reg_bc.lo, m)
  | 0x9A => .ok (4, c.sbc_reg_a c.reg_de.hi, m)
  | 0x9B => .ok (4, c.sbc_reg_a c.reg_de.lo, m)
  | 0x9C => .ok (4, c.sbc_reg_a c.reg_hl.hi, m)
  | 0x9D => .ok (4, c.sbc_reg_a c.reg_hl.lo, m)
  | 0x9E => .ok (8, c.sbc_reg_a (read_memory m c.reg_hl.get_pair), m)
  | 0x9F => .ok (4, c.sbc_reg_a c.reg_af.hi, m)
  | 0xA0 => .ok (4, c.and_reg_a c.reg_bc.hi, m)
  | 0xA1 => .ok (4, c.and_reg_a c.reg_bc.lo, m)
  | 0xA2 => .ok (4, c.and_reg_a c.reg_de.hi, m)
  | 0xA3 => .ok (4, c.and_reg_a c.reg_de.lo, m)
  | 0xA4 => .ok (4, c.and_reg_a c.reg_hl.hi, m)
  | 0xA5 => .ok (4, c.and_reg_a c.reg_hl.lo, m)
  | 0xA6 => .ok (8, c.and_reg_a (read_memory m c.reg_hl.get_pair), m)
  | 0xA7 => .ok (4, c.and_reg_a c.reg_af.hi, m)
  | 0xA8 => .ok (4, c.xor_reg_a c.reg_bc.hi, m)
  | 0xA9 => .ok (4, c.xor_reg_a c.reg_bc.lo, m)
  | 0xAA => .ok (4, c.xor_reg_a c.reg_de.hi, m)
  | 0xAB => .ok (4, c.xor_reg_a c.reg_de.lo, m)
  | 0xAC => .ok (4, c.xor_reg_a c.reg_hl.hi, m)
  | 0xAD => .ok (4, c.xor_reg_a c.reg_hl.lo, m)
  | 0xAE => .ok (8, c.xor_reg_a (read_memory m c.reg_hl.get_pair), m)
  | 0xAF => .ok (4, c.xor_reg_a c.reg_af.hi, m)
  | 0xB0 => .ok (4, c.or_reg_a c.reg_bc.hi, m)
  | 0xB1 => .ok (4, c.or_reg_a c.reg_bc.lo, m)
  | 0xB2 => .ok (4, c.or_reg_a c.reg_de.hi, m)
  | 0xB3 => .ok (4, c.or_reg_a c.reg_de.lo, m)
  | 0xB4 => .ok (4, c.or_reg_a c.reg_hl.hi, m)
  | 0xB5 => .ok (4, c.or_reg_a c.reg_hl.lo, m)
  | 0xB6 => .ok (8, c.or_reg_a (read_memory m c.reg_hl.get_pair), m)
  | 0xB7 => .ok (4, c.or_reg_a c.reg_af.hi, m)
  | 0xB8 => .ok (4, c.cp_reg_a c.reg_bc.hi, m)
  | 0xB9 => .ok (4, c.cp_reg_a c.reg_bc.lo, m)
  | 0xBA => .ok (4, c.cp_reg_a c.reg_de.hi, m)
  | 0xBB => .ok (4, c.cp_reg_a c.reg_de.lo, m)
  | 0xBC => .ok (4, c.cp_reg_a c.reg_hl.hi, m)
  | 0xBD => .ok (4, c.cp_reg_a c.reg_hl.lo, m)
  | 0xBE => .ok (8, c.cp_reg_a (read_memory m c.reg_hl.get_pair), m)
  | 0xBF => .ok (4, c.cp_reg_a c.reg_af.hi, m)
  | op => .error (.undefinedOpcode op)

/-- Opcode arms 0xC0 through 0xFF of the primary table of interpret_opcode
from src/cpu.rs, transcribed case by case.  The primary opcode values with
no arm in the source (0xD3, 0xDB, 0xDD, 0xE3, 0xE4, 0xEB, 0xEC, 0xED, 0xF4,
0xFC, 0xFD) all lie in this block and fall to its final arm, the
undefined-opcode panic of the source. -/
def Cpu.exec_opcode_main3 (c : Cpu) (m : Mem) : Nat → Except Panic (Nat × Cpu × Mem)
  | 0xC0 =>
      if ! test_bit c.reg_af.lo 7 then do
        let (w, c) ← c.stack_pop m
        .ok (20, { c with reg_pc := w }, m)
      else
        .ok (8, c, m)
  | 0xC1 => do
      let (w, c) ← c.stack_pop m
      .ok (12, { c with reg_bc := RegisterPair.set_pair w }, m)
  | 0xC2 =>
      if ! test_bit c.reg_af.lo 7 then do
        let (w, c) ← c.get_word m
        .ok (16, { c with reg_pc := w }, m)
      else do
        let pc ← checked_add16 c.reg_pc 2
        .ok (12, { c with reg_pc := pc }, m)
  | 0xC3 => do
      let (w, c) ← c.get_word m
      .ok (16, { c with reg_pc := w }, m)
  | 0xC4 =>
      if ! test_bit c.reg_af.lo 7 then do
        let pc := c.reg_pc
        let target ← checked_add16 pc 2
        let (c, m) ← c.stack_push m target
        let (w, c) ← c.get_word m
        .ok (24, { c with reg_pc := w }, m)
      else do
        let pc ← checked_add16 c.reg_pc 2
        .ok (12, { c with reg_pc := pc }, m)
  | 0xC5 => do
      let val := c.reg_bc.get_pair
      let (c, m) ← c.stack_push m val
      .ok (16, c, m)
  | 0xC6 => do
      let (b, c) ← c.get_byte m
      .ok (8, c.add_u8_a b, m)
  | 0xC7 => do
      let (c, m) ← c.call_routine m 0x0000
      .ok (16, c, m)
  | 0xC8 =>
      if test_bit c.reg_af.lo 7 then do
        let (w, c) ← c.stack_pop m
        .ok (20, { c with reg_pc := w }, m)
      else
        .ok (8, c, m)
  | 0xC9 => do
      let (w, c) ← c.stack_pop m
      .ok (16, { c with reg_pc := w }, m)
  | 0xCA =>
      if test_bit c.reg_af.lo 7 then do
        let (w, c) ← c.get_word m
        .ok (16, { c with reg_pc := w }, m)
      else do
        let pc ← checked_add16 c.reg_pc 2
        .ok (12, { c with reg_pc := pc }, m)
  | 0xCB => c.extended_instruction m
  | 0xCC =>
      if test_bit c.reg_af.lo 7 then do
        let pc := c.reg_pc
        let target ← checked_add16 pc 2
        let (c, m) ← c.stack_push m target
        let (w, c) ← c.get_word m
        .ok (24, { c with reg_pc := w }, m)
      else do
        let pc ← checked_add16 c.reg_pc 2
        .ok (12, { c with reg_pc := pc }, m)
  | 0xCD => do
      let pc := c.reg_pc
      let target ← checked_add16 pc 2
      let (c, m) ← c.stack_push m target
      let (w, c) ← c.get_word m
      .ok (24, { c with reg_pc := w }, m)
  | 0xCE => do
      let (b, c) ← c.get_byte m
      .ok (8, c.adc_reg_a b, m)
  | 0xCF => do
      let (c, m) ← c.call_routine m 0x0008
      .ok (16, c, m)
  | 0xD0 =>
      if ! test_bit c.reg_af.lo 4 then do
        let (w, c) ← c.stack_pop m
        .ok (20, { c with reg_pc := w }, m)
      else
        .ok (8, c, m)
  | 0xD1 => do
      let (w, c) ← c.stack_pop m
      .ok (12, { c with reg_de := RegisterPair.set_pair w }, m)
  | 0xD2 =>
      if ! test_bit c.reg_af.lo 4 then do
        let (w, c) ← c.get_word m
        .ok (16, { c with reg_pc := w }, m)
      else do
        let pc ← checked_add16 c.reg_pc 2
        .ok (12, { c with reg_pc := pc }, m)
  | 0xD4 =>
      if ! test_bit c.reg_af.lo 4 then do
        let pc := c.reg_pc
        let target ← checked_add16 pc 2
        let (c, m) ← c.stack_push m target
        let (w, c) ← c.get_word m
        .ok (24, { c with reg_pc := w }, m)
      else do
        let pc ← checked_add16 c.reg_pc 2
        .ok (12, { c with reg_pc := pc }, m)
  | 0xD5 => do
      let val := c.reg_de.get_pair
      let (c, m) ← c.stack_push m val
      .ok (16, c, m)
  | 0xD6 => do
      let (b, c) ← c.get_byte m
      .ok (8, c.sub_u8_a b, m)
  | 0xD7 => do
      let (c, m) ← c.call_routine m 0x0010
      .ok (16, c, m)
  | 0xD8 =>
      if test_bit c.reg_af.lo 4 then do
        let (w, c) ← c.stack_pop m
        .ok (20, { c with reg_pc := w }, m)
      else
        .ok (8, c, m)
  | 0xD9 => do
      let c := { c with interrupts_enabled := true }
      let (w, c) ← c.stack_pop m
      .ok (16, { c with reg_pc := w }, m)
  | 0xDA =>
      if test_bit c.reg_af.lo 4 then do
        let (w, c) ← c.get_word m
        .ok (16, { c with reg_pc := w }, m)
      else do
        let pc ← checked_add16 c.reg_pc 2
        .ok (12, { c with reg_pc := pc }, m)
  | 0xDC =>
      if test_bit c.reg_af.lo 4 then do
        let pc := c.reg_pc
        let target ← checked_add16 pc 2
        let (c, m) ← c.stack_push m target
        let (w, c) ← c.get_word m
        .ok (24, { c with reg_pc := w }, m)
      else do
        let pc ← checked_add16 c.reg_pc 2
        .ok (12, { c with reg_pc := pc }, m)
  | 0xDE => do
      let (b, c) ← c.get_byte m
      .ok (8, c.sbc_reg_a b, m)
  | 0xDF => do
      let (c, m) ← c.call_routine m 0x0018
      .ok (16, c, m)
  | 0xE0 => do
      let (b, c) ← c.get_byte m
      .ok (12, c, write_memory m (b ||| 0xFF00) c.reg_af.hi)
  | 0xE1 => do
      let (w, c) ← c.stack_pop m
      .ok (12, { c with reg_hl := RegisterPair.set_pair w }, m)
  | 0xE2 => .ok (8, c, write_memory m (c.reg_bc.lo ||| 0xFF00) c.reg_af.hi)
  | 0xE5 => do
      let val := c.reg_hl.get_pair
      let (c, m) ← c.stack_push m val
      .ok (16, c, m)
  | 0xE6 => do
      let (b, c) ← c.get_byte m
      .ok (8, c.and_reg_a b, m)
  | 0xE7 => do
      let (c, m) ← c.call_routine m 0x0020
      .ok (16, c, m)
  | 0xE8 => do
      let (b, c) ← c.get_byte m
      let byte := sign_extend16 b
      let sp := c.reg_sp.get_pair
      let c := { c with reg_sp := RegisterPair.set_pair ((sp + byte) % 65536) }
      let c := c.update_half_carry_flag (decide ((byte &&& 0x000F) + (sp &&& 0x000F) > 0x000F))
      let c := c.update_carry_flag (decide ((byte &&& 0x00FF) + (sp &&& 0x00FF) > 0x00FF))
      let c := c.update_zero_flag 1
      let c := c.update_subtract_flag false
      .ok (16, c, m)
  | 0xE9 => .ok (4, { c with reg_pc := c.reg_hl.get_pair }, m)
  | 0xEA => do
      let (address, c) ← c.get_word m
      .ok (16, c, write_memory m address c.reg_af.hi)
  | 0xEE => do
      let (b, c) ← c.get_byte m
      .ok (8, c.xor_reg_a b, m)
  | 0xEF => do
      let (c, m) ← c.call_routine m 0x0028
      .ok (16, c, m)
  | 0xF0 => do
      let (b, c) ← c.get_byte m
      .ok (12, { c with reg_af := { c.reg_af with hi := read_memory m (b ||| 0xFF00) } }, m)
  | 0xF1 => do
      let (w, c) ← c.stack_pop m
      .ok (12, { c with reg_af := RegisterPair.set_pair (w &&& 0xFFF0) }, m)
  | 0xF2 => .ok (8, { c with reg_af := { c.reg_af with hi := read_memory m (c.reg_bc.lo ||| 0xFF00) } }, m)
  | 0xF3 => .ok (4, { c with interrupts_enabled := false }, m)
  | 0xF5 => do
      let val := c.reg_af.get_pair
      let (c, m) ← c.stack_push m val
      .ok (16, c, m)
  | 0xF6 => do
      let (b, c) ← c.get_byte m
      .ok (8, c.or_reg_a b, m)
  | 0xF7 => do
      let (c, m) ← c.call_routine m 0x0030
      .ok (16, c, m)
  | 0xF8 => do
      let (b, c) ← c.get_byte m
      let byte := sign_extend16 b
      let sp := c.reg_sp.get_pair
      let c := { c with reg_hl := RegisterPair.set_pair ((sp + byte) % 65536) }
      let c := c.update_half_carry_flag (decide ((byte &&& 0x000F) + (sp &&& 0x000F) > 0x000F))
      let c := c.update_carry_flag (decide ((byte &&& 0x00FF) + (sp &&& 0x00FF) > 0x00FF))
      let c := c.update_zero_flag 1
      let c := c.update_subtract_flag false
      .ok (12, c, m)
  | 0xF9 => .ok (8, { c with reg_sp := RegisterPair.set_pair c.reg_hl.get_pair }, m)
  | 0xFA => do
      let (address, c) ← c.get_word m
      .ok (16, { c with reg_af := { c.reg_af with hi := read_memory m address } }, m)
  | 0xFB => .ok (4, { c with interrupts_enabled := true }, m)
  | 0xFE => do
      let (b, c) ← c.get_byte m
      .ok (8, c.cp_reg_a b, m)
  | 0xFF => do
      let (c, m) ← c.call_routine m 0x0038
      .ok (16, c, m)
  | op => .error (.undefinedOpcode op)

/-- Dispatch of the 256-entry primary opcode table of interpret_opcode from
src/cpu.rs; the caller has already fetched the opcode byte and advanced pc.
The table is transcribed case by case in the four blocks above; the range
tests here only select the block holding the arm for the given opcode
byte. -/
def Cpu.exec_opcode (c : Cpu) (m : Mem) (op : Nat) : Except Panic (Nat × Cpu × Mem) :=
  if op < 0x40 then c.exec_opcode_main0 m op
  else if op < 0x80 then c.exec_opcode_main1 m op
  else if op < 0xC0 then c.exec_opcode_main2 m op
  else c.exec_opcode_main3 m op

/-- interpret_opcode from src/cpu.rs: when halted, return 4 immediately;
otherwise fetch the byte at pc, advance pc (unchecked +), and dispatch on
the primary opcode table. -/
def Cpu.interpret_opcode (c : Cpu) (m : Mem) : Except Panic (Nat × Cpu × Mem) := do
  if c.halted then
    return (4, c, m)
  let opcode := read_memory m c.reg_pc
  let pc1 ← checked_add16 c.reg_pc 1
  let c := { c with reg_pc := pc1 }
  c.exec_opcode m opcode

/-- Repeated invocation of interpret_opcode, discarding the cycle counts. -/
def Cpu.run_steps : Nat → Cpu → Mem → Except Panic (Cpu × Mem)
  | 0, c, m => .ok (c, m)
  | n + 1, c, m => do
      let (_, c, m) ← c.interpret_opcode m
      Cpu.run_steps n c m

/-- The list of primary opcode bytes that have no arm in the source's
dispatch table. -/
def missing_opcodes : List Nat :=
  [0xD3, 0xDB, 0xDD, 0xE3, 0xE4, 0xEB, 0xEC, 0xED, 0xF4, 0xFC, 0xFD]

/-- Probe state for exhibiting non-aborting executions: power-on registers
with the stack pointer moved to 0xFF80 so stack traffic stays in range, and
a cleared flag byte. -/
def probeCpu : Cpu :=
  { Cpu.new with
    reg_sp := RegisterPair.set_pair 0xFF80
    reg_af := RegisterPair.set_pair 0x0100 }

/-- Probe memory holding a chosen opcode at the power-on pc and zero
elsewhere. -/
def probeMem (op : Nat) : Mem :=
  fun a => if a = 0x0100 then op else 0

/-- Discriminator: did the embedded interpreter return normally. -/
def is_ok : Except Panic (Nat × Cpu × Mem) → Bool
  | .ok _ => true
  | .error _ => false

/-- Projection of an interpreter result to its cycle count. -/
def cycles_of : Except Panic (Nat × Cpu × Mem) → Option Nat
  | .ok r => some r.1
  | .error _ => none

/-- Projection of an interpreter result to the resulting CPU state. -/
def cpu_of : Except Panic (Nat × Cpu × Mem) → Option Cpu
  | .ok r => some r.2.1
  | .error _ => none

theorem checked_add16_ok {a b : Nat} (h : a + b < 65536) :
    checked_add16 a b = .ok (a + b) := by
  simp [checked_add16, h]

theorem checked_sub16_ok {a b : Nat} (h : b ≤ a) :
    checked_sub16 a b = .ok (a - b) := by
  simp [checked_sub16, h]

theorem checked_sub16_err {a b : Nat} (h : a < b) :
    checked_sub16 a b = .error .overflow := by
  have hn : ¬ b ≤ a := by omega
  simp [checked_sub16, hn]

theorem get_pair_set_pair {v : Nat} (h : v < 65536) :
    (RegisterPair.set_pair v).get_pair = v := by
  simp only [RegisterPair.set_pair, RegisterPair.get_pair]
  omega

theorem get_pair_lt (r : RegisterPair) (hh : r.hi < 256) (hl : r.lo < 256) :
    r.get_pair < 65536 := by
  simp only [RegisterPair.get_pair]
  omega

theorem lor_hi_lo (a b : Nat) (hb : b < 256) : (a <<< 8) ||| b = a * 256 + b := by
  have hb8 : b < 2 ^ 8 := by omega
  rw [Nat.shiftLeft_eq, Nat.mul_comm, ← Nat.mul_add_lt_is_or hb8 a]

theorem read_memory_lt (m : Mem) (a : Nat) : read_memory m a < 256 := by
  simp only [read_memory]
  exact Nat.mod_lt _ (by omega)

theorem land_255_eq_mod (v : Nat) : v &&& 255 = v % 256 := by
  have h : (255 : Nat) = 2 ^ 8 - 1 := by norm_num
  rw [h, Nat.and_pow_two_sub_one_eq_mod]

theorem ok_bind {α β : Type} (a : α) (f : α → Except Panic β) :
    (Except.ok a >>= f : Except Panic β) = f a := rfl

theorem interpret_opcode_fetch (c : Cpu) (m : Mem) (hh : c.halted = false)
    (hpc : c.reg_pc + 1 < 65536) :
    c.interpret_opcode m =
      Cpu.exec_opcode { c with reg_pc := c.reg_pc + 1 } m (read_memory m c.reg_pc) := by
  unfold Cpu.interpret_opcode
  rw [if_neg (by simp [hh]), checked_add16_ok hpc]
  rfl

theorem extended_instruction_fetch (c : Cpu) (m : Mem) (hpc : c.reg_pc + 1 < 65536) :
    c.extended_instruction m =
      Cpu.exec_extended { c with reg_pc := c.reg_pc + 1 } m (read_memory m c.reg_pc) := by
  unfold Cpu.extended_instruction Cpu.get_byte
  rw [checked_add16_ok hpc]
  rfl

theorem exec_extended_passive (c : Cpu) (m : Mem) (op : Nat)
    (h9 : 9 ≤ op) (h255 : op ≤ 255) :
    Cpu.exec_extended c m op =
      .ok ((if op % 16 = 0x6 ∨ op % 16 = 0xE then 16 else 8), c, m) := by
  unfold Cpu.exec_extended
  have e0 : ¬ ((op == 0x00) = true) := by simp; omega
  have e1 : ¬ ((op == 0x01) = true) := by simp; omega
  have e2 : ¬ ((op == 0x02) = true) := by simp; omega
  have e3 : ¬ ((op == 0x03) = true) := by simp; omega
  have e4 : ¬ ((op == 0x04) = true) := by simp; omega
  have e5 : ¬ ((op == 0x05) = true) := by simp; omega
  have e6 : ¬ ((op == 0x06) = true) := by simp; omega
  have e8 : ¬ ((op == 0x08) = true) := by simp; omega
  rw [if_neg e0, if_neg e1, if_neg e2, if_neg e3, if_neg e4, if_neg e5, if_neg e6,
    if_neg e8, if_pos (And.intro h9 h255)]
  by_cases h : op % 16 = 0x6 ∨ op % 16 = 0xE
  · have hb : (op % 16 == 0x6 || op % 16 == 0xE) = true := by
      rcases h with h | h <;> simp [h]
    rw [if_pos hb, if_pos h]
  · have hb : ¬ ((op % 16 == 0x6 || op % 16 == 0xE) = true) := by
      simp only [Bool.or_eq_true, beq_iff_eq]
      tauto
    rw [if_neg hb, if_neg h]

theorem update_ram_writing_rom_bank (cart : Cartridge) (address byte : Nat) :
    (cart.update_ram_writing address byte).current_rom_bank = cart.current_rom_bank := by
  simp only [Cartridge.update_ram_writing]
  split
  · rfl
  · split
    · rfl
    · split <;> rfl

theorem set_banking_mode_rom_bank (cart : Cartridge) (byte : Nat) :
    (cart.set_banking_mode byte).current_rom_bank = cart.current_rom_bank := by
  simp only [Cartridge.set_banking_mode]
  split <;> rfl

theorem change_lo_rom_bank_ne_zero (cart : Cartridge) (byte : Nat) :
    (cart.change_lo_rom_bank byte).current_rom_bank ≠ 0 := by
  simp only [Cartridge.change_lo_rom_bank]
  split <;> split <;> simp_all

theorem change_hi_rom_bank_ne_zero (cart : Cartridge) (byte : Nat) :
    (cart.change_hi_rom_bank byte).current_rom_bank ≠ 0 := by
  simp only [Cartridge.change_hi_rom_bank]
  split <;> simp_all

theorem manage_banking_ne_zero (cart : Cartridge) (address byte : Nat)
    (h : cart.current_rom_bank ≠ 0) :
    (cart.manage_banking address byte).current_rom_bank ≠ 0 := by
  simp only [Cartridge.manage_banking]
  split
  · split
    · rw [update_ram_writing_rom_bank]; exact h
    · exact h
  · split
    · split
      · exact change_lo_rom_bank_ne_zero cart byte
      · exact h
    · split
      · split
        · split
          · exact change_hi_rom_bank_ne_zero cart byte
          · simp only [Cartridge.change_ram_bank]; exact h
        · exact h
      · split
        · split
          · rw [set_banking_mode_rom_bank]; exact h
          · exact h
        · exact h

theorem run_banking_ne_zero (writes : List (Nat × Nat)) (cart : Cartridge)
    (h : cart.current_rom_bank ≠ 0) :
    (run_banking cart writes).current_rom_bank ≠ 0 := by
  induction writes generalizing cart with
  | nil => exact h
  | cons w ws ih => exact ih _ (manage_banking_ne_zero cart w.1 w.2 h)

/-- Claim C1, evaluated at the failing inputs: add_u8_a computes the carry
flag from src plus the wrapped sum rather than src plus the prior value of
A.  With A = 0xFF and src = 0x01 the true unsigned sum 0x100 exceeds 0xFF
yet the flag comes out clear (also through the immediate opcode 0xC6); with
A = 0x00 and src = 0x80 the unsigned sum does not exceed 0xFF yet the flag
comes out set. -/
theorem add_u8_a_carry_divergence :
    (test_bit (({ probeCpu with reg_af := { hi := 0xFF, lo := 0x00 } }.add_u8_a
        0x01).reg_af.lo) 4 = false ∧ 0xFF + 0x01 > 0xFF) ∧
    (test_bit (({ probeCpu with reg_af := { hi := 0x00, lo := 0x00 } }.add_u8_a
        0x80).reg_af.lo) 4 = true ∧ ¬ (0x00 + 0x80 > 0xFF)) ∧
    (cpu_of ({ probeCpu with reg_af := { hi := 0xFF, lo := 0x00 } }.interpret_opcode
        (fun a => if a = 0x0100 then 0xC6 else 0x01))).map
      (fun c => test_bit c.reg_af.lo 4) = some false := by
  decide

/-- Claim C2, evaluated at the failing inputs: opcode 0x29 stores the saved
pre-add value of HL back into the pair after add_u16_hl, so with HL = 0x0001
the pair still holds 0x0001 instead of 0x0002 (cycle count 8 as documented);
and the half-carry condition of add_u16_hl masks the 12-bit sum with 0x100,
so with HL = 0x0080 the flag comes out set although the sum of the low 12
bits does not exceed 0xFFF. -/
theorem add_hl_hl_divergence :
    ((cpu_of ({ probeCpu with reg_hl := RegisterPair.set_pair 0x0001 }.interpret_opcode
        (probeMem 0x29))).map (fun c => c.reg_hl.get_pair) = some 0x0001 ∧
      (0x0001 + 0x0001) % 65536 ≠ 0x0001) ∧
    ((cpu_of ({ probeCpu with reg_hl := RegisterPair.set_pair 0x0080 }.interpret_opcode
        (probeMem 0x29))).map (fun c => test_bit c.reg_af.lo 5) = some true ∧
      ¬ ((0x0080 &&& 0xFFF) + (0x0080 &&& 0xFFF) > 0xFFF)) ∧
    cycles_of ({ probeCpu with reg_hl := RegisterPair.set_pair 0x0001 }.interpret_opcode
        (probeMem 0x29)) = some 8 := by
  decide

/-- Claim C3, evaluated at the two boundary inputs: inc_u8 computes the
half-carry condition from the already incremented value, so on 0x0F it
produces 0x10 with the Half-Carry flag clear (Zero clear as claimed), and
on 0xFF it produces 0x00 with the Zero flag set but the Half-Carry flag
clear, contradicting the claimed Half-Carry results. -/
theorem inc_u8_half_carry_divergence :
    ((probeCpu.inc_u8 0x0F).2 = 0x10 ∧
      test_bit (probeCpu.inc_u8 0x0F).1.reg_af.lo 5 = false ∧
      test_bit (probeCpu.inc_u8 0x0F).1.reg_af.lo 7 = false) ∧
    ((probeCpu.inc_u8 0xFF).2 = 0x00 ∧
      test_bit (probeCpu.inc_u8 0xFF).1.reg_af.lo 7 = true ∧
      test_bit (probeCpu.inc_u8 0xFF).1.reg_af.lo 5 = false) := by
  decide

/-- Claim C4 (amended): under any sequence of manage_banking writes from a
state with a nonzero current_rom_bank the bank register never becomes zero;
a write to the 0x2000-0x3FFF range whose relevant bank bits are all zero
leaves the bank exactly 1 for MBC2 always, and for MBC1 exactly when bits
5-7 of the current bank are zero. -/
theorem rom_bank_nonzero_invariant :
    (∀ (cart : Cartridge) (writes : List (Nat × Nat)), cart.current_rom_bank ≠ 0 →
      (run_banking cart writes).current_rom_bank ≠ 0) ∧
    (∀ (cart : Cartridge) (address byte : Nat), cart.banking_type = BankingType.MBC2 →
      0x2000 ≤ address → address < 0x4000 → byte &&& 0x0F = 0 →
      (cart.manage_banking address byte).current_rom_bank = 1) ∧
    (∀ (cart : Cartridge) (address byte : Nat), cart.banking_type = BankingType.MBC1 →
      0x2000 ≤ address → address < 0x4000 → byte &&& 0x1F = 0 →
      cart.current_rom_bank &&& 0xE0 = 0 →
      (cart.manage_banking address byte).current_rom_bank = 1) := by
  refine ⟨fun cart writes h => run_banking_ne_zero writes cart h, ?_, ?_⟩
  · intro cart address byte hbt h1 h2 hbits
    have hlt : ¬ address < 0x2000 := by omega
    simp only [Cartridge.manage_banking, hlt, if_false, if_pos (And.intro h1 h2), hbt]
    simp [Cartridge.change_lo_rom_bank, hbits, hbt]
  · intro cart address byte hbt h1 h2 hbits hhi
    have hlt : ¬ address < 0x2000 := by omega
    simp only [Cartridge.manage_banking, hlt, if_false, if_pos (And.intro h1 h2), hbt]
    simp [Cartridge.change_lo_rom_bank, hbits, hhi, hbt]

theorem rom_bank_nonzero_invariant_witness :
    (run_banking (Cartridge.fresh BankingType.MBC1)
        [(0x2000, 0x00), (0x4000, 0x40)]).current_rom_bank ≠ 0 ∧
    ((Cartridge.fresh BankingType.MBC2).manage_banking 0x2000 0x10).current_rom_bank = 1 ∧
    ((Cartridge.fresh BankingType.MBC1).manage_banking 0x2000 0x20).current_rom_bank = 1 :=
  ⟨rom_bank_nonzero_invariant.1 _ _ (by decide),
   rom_bank_nonzero_invariant.2.1 _ 0x2000 0x10 (by decide) (by decide) (by decide) (by decide),
   rom_bank_nonzero_invariant.2.2 _ 0x2000 0x20 (by decide) (by decide) (by decide) (by decide)
     (by decide)⟩

/-- Claim C4 counterexample: from the freshly constructed MBC1 cartridge
(current_rom_bank 1), the write manage_banking 0x4000 0x40 sets the high
bank bits (a reachable state), after which the low-range write
manage_banking 0x2000 0x00, whose relevant bank bits are all zero, leaves
current_rom_bank at 0x40, not 1 as the claim requires. -/
theorem rom_bank_zero_write_not_one :
    (((Cartridge.fresh BankingType.MBC1).manage_banking 0x4000 0x40).manage_banking
        0x2000 0x00).current_rom_bank = 0x40 ∧ (0x40 : Nat) ≠ 1 := by
  constructor
  · rfl
  · decide

/-- Claim C5: with the halted switch set, interpret_opcode returns cycle
cost 4 with the CPU state and memory unchanged, for every memory (so the
call neither depends on nor modifies memory contents), and any number of
repeated calls leaves the state and memory unchanged. -/
theorem halted_interpret_fixed (c : Cpu) (m : Mem) (h : c.halted = true) :
    c.interpret_opcode m = .ok (4, c, m) ∧
      ∀ n, Cpu.run_steps n c m = .ok (c, m) := by
  have h1 : c.interpret_opcode m = .ok (4, c, m) := by
    unfold Cpu.interpret_opcode
    rw [if_pos h]
    rfl
  refine ⟨h1, fun n => ?_⟩
  induction n with
  | zero => rfl
  | succ k ih =>
      simp only [Cpu.run_steps, h1]
      exact ih

theorem halted_interpret_fixed_witness :
    { probeCpu with halted := true }.interpret_opcode (probeMem 0x12) =
      .ok (4, { probeCpu with halted := true }, probeMem 0x12) ∧
    Cpu.run_steps 3 { probeCpu with halted := true } (probeMem 0x12) =
      .ok ({ probeCpu with halted := true }, probeMem 0x12) :=
  ⟨(halted_interpret_fixed _ _ rfl).1, (halted_interpret_fixed _ _ rfl).2 3⟩

/-- Claim C6: for every 16-bit value v and every state whose stack pointer
holds at least 2 (bytes in range), stack_push of v followed by stack_pop
returns v and restores the stack pointer to its pre-push value, with the
memory collaborator returning the value last written to each address. -/
theorem stack_push_pop_roundtrip (c : Cpu) (m : Mem) (v : Nat)
    (hv : v < 65536) (hhi : c.reg_sp.hi < 256) (hlo : c.reg_sp.lo < 256)
    (hsp : 2 ≤ c.reg_sp.get_pair) :
    ∃ c1 m1 c2, c.stack_push m v = .ok (c1, m1) ∧
      c1.stack_pop m1 = .ok (v, c2) ∧
      c2.reg_sp.get_pair = c.reg_sp.get_pair := by
  have hsplt : c.reg_sp.get_pair < 65536 := get_pair_lt c.reg_sp hhi hlo
  set sp := c.reg_sp.get_pair with hspdef
  have hs1 : checked_sub16 sp 1 = .ok (sp - 1) := checked_sub16_ok (by omega)
  have hs2 : checked_sub16 sp 2 = .ok (sp - 2) := checked_sub16_ok (by omega)
  have g1 : (RegisterPair.set_pair (sp - 1)).get_pair = sp - 1 := get_pair_set_pair (by omega)
  have g2 : (RegisterPair.set_pair (sp - 2)).get_pair = sp - 2 := get_pair_set_pair (by omega)
  have hpush : c.stack_push m v = .ok
      ({ c with reg_sp := RegisterPair.set_pair (sp - 2) },
        write_memory (write_memory m (sp - 1) (v &&& 0xFF)) (sp - 2) ((v >>> 8) % 256)) := by
    simp only [Cpu.stack_push, ← hspdef, hs1, hs2, ok_bind, g1, g2]
  refine ⟨{ c with reg_sp := RegisterPair.set_pair (sp - 2) },
    write_memory (write_memory m (sp - 1) (v &&& 0xFF)) (sp - 2) ((v >>> 8) % 256),
    { c with reg_sp := RegisterPair.set_pair sp }, hpush, ?_, ?_⟩
  · have hm2 : (sp - 2) % 65536 = sp - 2 := Nat.mod_eq_of_lt (by omega)
    have hm1 : (sp - 1) % 65536 = sp - 1 := Nat.mod_eq_of_lt (by omega)
    have hprev : ({ c with reg_sp := RegisterPair.set_pair (sp - 2) } : Cpu).reg_sp.get_pair
        = sp - 2 := g2
    have hs3 : checked_add16 (sp - 2) 1 = .ok (sp - 1) := by
      rw [checked_add16_ok (by omega)]
      congr 1
      omega
    have hs4 : checked_add16 (sp - 2) 2 = .ok sp := by
      rw [checked_add16_ok (by omega)]
      congr 1
      omega
    have hr1 : read_memory
        (write_memory (write_memory m (sp - 1) (v &&& 0xFF)) (sp - 2) ((v >>> 8) % 256))
        (sp - 2) = (v >>> 8) % 256 := by
      simp only [read_memory, write_memory, hm2, if_true]
      omega
    have hr2 : read_memory
        (write_memory (write_memory m (sp - 1) (v &&& 0xFF)) (sp - 2) ((v >>> 8) % 256))
        (sp - 1) = v &&& 0xFF := by
      simp only [read_memory, write_memory, hm1, hm2]
      rw [if_neg (by omega : ¬ (sp - 1 = sp - 2))]
      simp only [if_true]
      have := Nat.and_le_right (n := v) (m := 255)
      omega
    simp only [Cpu.stack_pop, hprev, hs3, hs4, ok_bind, hr1, hr2]
    have hword : ((v >>> 8) % 256) <<< 8 ||| (v &&& 0xFF) = v := by
      have hb : v &&& 0xFF < 256 := by
        have := Nat.and_le_right (n := v) (m := 255)
        omega
      rw [lor_hi_lo _ _ hb, land_255_eq_mod]
      have hv8 : v >>> 8 = v / 256 := by
        rw [Nat.shiftRight_eq_div_pow]
      rw [hv8]
      omega
    rw [hword]
  · rw [show (({ c with reg_sp := RegisterPair.set_pair sp } : Cpu)).reg_sp.get_pair
      = sp from get_pair_set_pair hsplt]

theorem stack_push_pop_roundtrip_witness :
    (0xABCD : Nat) < 65536 ∧ 2 ≤ probeCpu.reg_sp.get_pair ∧
    (∃ c1 m1 c2, probeCpu.stack_push (probeMem 0) 0xABCD = .ok (c1, m1) ∧
      c1.stack_pop m1 = .ok (0xABCD, c2) ∧
      c2.reg_sp.get_pair = probeCpu.reg_sp.get_pair) :=
  ⟨by decide, by decide,
    stack_push_pop_roundtrip probeCpu (probeMem 0) 0xABCD
      (by decide) (by decide) (by decide) (by decide)⟩

/-- Claim C7: for every fetched extended opcode byte in the range 0x09
through 0xFF, extended_instruction returns cycle cost 16 when the low
nibble of the byte is 0x6 or 0xE and 8 otherwise, advances only pc, leaves
every register pair, every flag, interrupts_enabled and halted unchanged,
and returns the memory unchanged (no write). -/
theorem extended_table_passive_range (c : Cpu) (m : Mem)
    (hpc : c.reg_pc + 1 < 65536) (hop : 0x09 ≤ read_memory m c.reg_pc) :
    c.extended_instruction m =
      .ok ((if read_memory m c.reg_pc % 16 = 0x6 ∨ read_memory m c.reg_pc % 16 = 0xE
            then 16 else 8),
        { c with reg_pc := c.reg_pc + 1 }, m) := by
  rw [extended_instruction_fetch c m hpc]
  exact exec_extended_passive _ _ _ hop (by have := read_memory_lt m c.reg_pc; omega)

theorem extended_table_passive_range_witness :
    (0x0100 : Nat) + 1 < 65536 ∧ 0x09 ≤ read_memory (probeMem 0x26) 0x0100 ∧
    probeCpu.extended_instruction (probeMem 0x26) =
      .ok ((if read_memory (probeMem 0x26) probeCpu.reg_pc % 16 = 0x6 ∨
            read_memory (probeMem 0x26) probeCpu.reg_pc % 16 = 0xE then 16 else 8),
        { probeCpu with reg_pc := probeCpu.reg_pc + 1 }, probeMem 0x26) :=
  ⟨by decide, by decide,
    extended_table_passive_range probeCpu (probeMem 0x26) (by decide) (by decide)⟩

/-- Claim C8 (amended): interpret_opcode aborts with a diagnostic naming the
opcode exactly for each of the eleven primary opcode bytes with no assigned
table entry (0xD3, 0xDB, 0xDD, 0xE3, 0xE4, 0xEB, 0xEC, 0xED, 0xF4, 0xFC,
0xFD); every other primary opcode byte admits executions that return a
cycle cost without aborting (exhibited from the probe state), though such a
byte can still abort in particular states, namely 0xCB when the fetched
extended opcode is 0x07 and opcodes whose unchecked 16-bit arithmetic
overflows under debug semantics. -/
theorem undefined_opcode_behavior :
    (∀ (c : Cpu) (m : Mem) (op : Nat), op ∈ missing_opcodes → c.halted = false →
      c.reg_pc + 1 < 65536 → read_memory m c.reg_pc = op →
      c.interpret_opcode m = .error (.undefinedOpcode op)) ∧
    (∀ op : Nat, op < 256 → op ∉ missing_opcodes →
      is_ok (probeCpu.interpret_opcode (probeMem op)) = true) := by
  constructor
  · intro c m op hmem hh hpc hread
    fin_cases hmem <;> (rw [interpret_opcode_fetch c m hh hpc, hread]; rfl)
  · decide

theorem undefined_opcode_behavior_witness :
    ((0xD3 : Nat) ∈ missing_opcodes ∧ probeCpu.halted = false ∧
      probeCpu.reg_pc + 1 < 65536 ∧
      read_memory (probeMem 0xD3) probeCpu.reg_pc = 0xD3 ∧
      probeCpu.interpret_opcode (probeMem 0xD3) = .error (.undefinedOpcode 0xD3)) ∧
    ((0x00 : Nat) < 256 ∧ (0x00 : Nat) ∉ missing_opcodes ∧
      is_ok (probeCpu.interpret_opcode (probeMem 0x00)) = true) :=
  ⟨⟨by decide, rfl, by decide, by decide,
      undefined_opcode_behavior.1 probeCpu (probeMem 0xD3) 0xD3
        (by decide) rfl (by decide) (by decide)⟩,
    by decide, by decide,
      undefined_opcode_behavior.2 0x00 (by decide) (by decide)⟩

/-- Claim C8 counterexample: the primary opcode byte 0xCB is not among the
unassigned bytes, yet interpret_opcode aborts on it when the following
extended opcode byte is 0x07, the one entry missing from the extended
table; so it is not the case that every primary opcode byte outside the
unassigned list returns a cycle cost without aborting. -/
theorem opcode_cb07_aborts :
    probeCpu.interpret_opcode (fun a => if a = 0x0100 then 0xCB else 0x07) =
      .error (.undefinedExtOpcode 0x07) ∧ (0xCB : Nat) ∉ missing_opcodes :=
  ⟨rfl, by decide⟩

/-- Claim C9: executing primary opcode 0x45 copies register E (reg_de.lo)
into register B (reg_bc.hi), and executing primary opcode 0x4D copies
register E into register C (reg_bc.lo) — both read their source from E. -/
theorem ld_b_c_source_is_e (c : Cpu) (m45 m4D : Mem) (hh : c.halted = false)
    (hpc : c.reg_pc + 1 < 65536)
    (h45 : read_memory m45 c.reg_pc = 0x45) (h4D : read_memory m4D c.reg_pc = 0x4D) :
    c.interpret_opcode m45 = .ok (4, { c with reg_pc := c.reg_pc + 1, reg_bc := { c.reg_bc with hi := c.reg_de.lo } }, m45) ∧
    c.interpret_opcode m4D = .ok (4, { c with reg_pc := c.reg_pc + 1, reg_bc := { c.reg_bc with lo := c.reg_de.lo } }, m4D) := by
  constructor
  · rw [interpret_opcode_fetch c m45 hh hpc, h45]
    rfl
  · rw [interpret_opcode_fetch c m4D hh hpc, h4D]
    rfl

theorem ld_b_c_source_is_e_witness :
    probeCpu.halted = false ∧ probeCpu.reg_pc + 1 < 65536 ∧
    read_memory (probeMem 0x45) probeCpu.reg_pc = 0x45 ∧
    read_memory (probeMem 0x4D) probeCpu.reg_pc = 0x4D ∧
    (probeCpu.interpret_opcode (probeMem 0x45) = .ok (4, { probeCpu with reg_pc := probeCpu.reg_pc + 1, reg_bc := { probeCpu.reg_bc with hi := probeCpu.reg_de.lo } }, probeMem 0x45) ∧
     probeCpu.interpret_opcode (probeMem 0x4D) = .ok (4, { probeCpu with reg_pc := probeCpu.reg_pc + 1, reg_bc := { probeCpu.reg_bc with lo := probeCpu.reg_de.lo } }, probeMem 0x4D)) :=
  ⟨rfl, by decide, by decide, by decide,
    ld_b_c_source_is_e probeCpu (probeMem 0x45) (probeMem 0x4D)
      rfl (by decide) (by decide) (by decide)⟩

/-- Probe state with only the BC pair zeroed (stack pointer and the other
pairs keep their nonzero probe values). -/
def probeCpuBC0 : Cpu :=
  { probeCpu with reg_bc := RegisterPair.set_pair 0 }

/-- Probe state with only the DE pair zeroed. -/
def probeCpuDE0 : Cpu :=
  { probeCpu with reg_de := RegisterPair.set_pair 0 }

/-- Probe state with only the HL pair zeroed. -/
def probeCpuHL0 : Cpu :=
  { probeCpu with reg_hl := RegisterPair.set_pair 0 }

/-- Probe state with only the SP pair zeroed (BC, DE and HL keep their
nonzero probe values). -/
def probeCpuSP0 : Cpu :=
  { probeCpu with reg_sp := RegisterPair.set_pair 0 }

/-- Claim C10: the 16-bit decrement opcodes 0x0B, 0x1B, 0x2B and 0x3B
compute the new pair value with the unchecked minus operator; for each of
the four opcodes, in every state where its targeted pair alone is required
to hold 0x0000 (all other registers arbitrary) the subtraction underflows
and the embedded interpreter aborts (a panic under Rust debug semantics)
instead of producing 0xFFFF.  The four conjuncts quantify over four
independent states, one per opcode. -/
theorem dec_pair_unchecked_underflow
    (cBC cDE cHL cSP : Cpu) (mBC mDE mHL mSP : Mem)
    (hhBC : cBC.halted = false) (hpcBC : cBC.reg_pc + 1 < 65536)
    (hbc : cBC.reg_bc.get_pair = 0) (h1 : read_memory mBC cBC.reg_pc = 0x0B)
    (hhDE : cDE.halted = false) (hpcDE : cDE.reg_pc + 1 < 65536)
    (hde : cDE.reg_de.get_pair = 0) (h2 : read_memory mDE cDE.reg_pc = 0x1B)
    (hhHL : cHL.halted = false) (hpcHL : cHL.reg_pc + 1 < 65536)
    (hhl : cHL.reg_hl.get_pair = 0) (h3 : read_memory mHL cHL.reg_pc = 0x2B)
    (hhSP : cSP.halted = false) (hpcSP : cSP.reg_pc + 1 < 65536)
    (hsp : cSP.reg_sp.get_pair = 0) (h4 : read_memory mSP cSP.reg_pc = 0x3B) :
    cBC.interpret_opcode mBC = .error .overflow ∧
    cDE.interpret_opcode mDE = .error .overflow ∧
    cHL.interpret_opcode mHL = .error .overflow ∧
    cSP.interpret_opcode mSP = .error .overflow := by
  have he : checked_sub16 0 1 = Except.error Panic.overflow := checked_sub16_err (by omega)
  refine ⟨?_, ?_, ?_, ?_⟩
  · rw [interpret_opcode_fetch cBC mBC hhBC hpcBC, h1]
    have harm : ∀ (c2 : Cpu) (m2 : Mem), Cpu.exec_opcode c2 m2 0x0B =
        (checked_sub16 c2.reg_bc.get_pair 1) >>=
          (fun v => Except.ok (8, { c2 with reg_bc := RegisterPair.set_pair v }, m2)) :=
      fun c2 m2 => rfl
    rw [harm,
      show ({ cBC with reg_pc := cBC.reg_pc + 1 } : Cpu).reg_bc.get_pair = 0 from hbc, he]
    rfl
  · rw [interpret_opcode_fetch cDE mDE hhDE hpcDE, h2]
    have harm : ∀ (c2 : Cpu) (m2 : Mem), Cpu.exec_opcode c2 m2 0x1B =
        (checked_sub16 c2.reg_de.get_pair 1) >>=
          (fun v => Except.ok (8, { c2 with reg_de := RegisterPair.set_pair v }, m2)) :=
      fun c2 m2 => rfl
    rw [harm,
      show ({ cDE with reg_pc := cDE.reg_pc + 1 } : Cpu).reg_de.get_pair = 0 from hde, he]
    rfl
  · rw [interpret_opcode_fetch cHL mHL hhHL hpcHL, h3]
    have harm : ∀ (c2 : Cpu) (m2 : Mem), Cpu.exec_opcode c2 m2 0x2B =
        (checked_sub16 c2.reg_hl.get_pair 1) >>=
          (fun v => Except.ok (8, { c2 with reg_hl := RegisterPair.set_pair v }, m2)) :=
      fun c2 m2 => rfl
    rw [harm,
      show ({ cHL with reg_pc := cHL.reg_pc + 1 } : Cpu).reg_hl.get_pair = 0 from hhl, he]
    rfl
  · rw [interpret_opcode_fetch cSP mSP hhSP hpcSP, h4]
    have harm : ∀ (c2 : Cpu) (m2 : Mem), Cpu.exec_opcode c2 m2 0x3B =
        (checked_sub16 c2.reg_sp.get_pair 1) >>=
          (fun v => Except.ok (8, { c2 with reg_sp := RegisterPair.set_pair v }, m2)) :=
      fun c2 m2 => rfl
    rw [harm,
      show ({ cSP with reg_pc := cSP.reg_pc + 1 } : Cpu).reg_sp.get_pair = 0 from hsp, he]
    rfl

theorem dec_pair_unchecked_underflow_witness :
    probeCpuBC0.reg_bc.get_pair = 0 ∧ probeCpuBC0.reg_sp.get_pair = 0xFF80 ∧
    probeCpuSP0.reg_sp.get_pair = 0 ∧ probeCpuSP0.reg_bc.get_pair = 0x0013 ∧
    (probeCpuBC0.interpret_opcode (probeMem 0x0B) = .error .overflow ∧
     probeCpuDE0.interpret_opcode (probeMem 0x1B) = .error .overflow ∧
     probeCpuHL0.interpret_opcode (probeMem 0x2B) = .error .overflow ∧
     probeCpuSP0.interpret_opcode (probeMem 0x3B) = .error .overflow) :=
  ⟨by decide, by decide, by decide, by decide,
    dec_pair_unchecked_underflow probeCpuBC0 probeCpuDE0 probeCpuHL0 probeCpuSP0
      (probeMem 0x0B) (probeMem 0x1B) (probeMem 0x2B) (probeMem 0x3B)
      rfl (by decide) (by decide) (by decide)
      rfl (by decide) (by decide) (by decide)
      rfl (by decide) (by decide) (by decide)
      rfl (by decide) (by decide) (by decide)⟩
